import Mathlib

/-!
Shallow embedding of the block file system implemented in `src/src/lib.rs`
(struct `FileSystem` over a RAM disk), together with theorems settling the
frozen claims about it.

Conventions of the embedding:
* machine bytes (`u8`) are `Nat` values kept in `0..256` by construction,
  with `% 256` applied exactly where the Rust code truncates;
* fixed-size Rust arrays are Lean `List Nat` values of the corresponding
  length; `List.getD _ _ 0` models in-bounds indexing (all theorem inputs
  keep the indices in bounds unless a claim is about the out-of-bounds
  behaviour itself);
* the public operations return `Option (FileSystemResult _ × FS)`:
  `none` models a Rust panic (the concrete panic sites that the claims
  exercise are guarded explicitly, e.g. the unchecked `namebuffer[i] = c`
  copy in `open_read` and the unchecked `self.open[fd]` indexing);
* the RAM disk (out of scope for the source repository) is a
  `List (List Nat)` of `NUM_BLOCKS` blocks of `BLOCK_SIZE` zero-initialised
  bytes, with total read/write operations.
-/

namespace FsSpec

/-- The seven compile-time size parameters (const generics) of the Rust
`FileSystem`. -/
structure Params where
  MAX_OPEN : Nat
  BLOCK_SIZE : Nat
  NUM_BLOCKS : Nat
  MAX_FILE_BLOCKS : Nat
  MAX_FILE_BYTES : Nat
  MAX_FILES_STORED : Nat
  MAX_FILENAME_BYTES : Nat
  deriving DecidableEq, Repr

/-- Derived quantity `num_inode_bytes`: serialized size of one inode record. -/
def Params.num_inode_bytes (p : Params) : Nat := 2 + p.MAX_FILE_BLOCKS

/-- Derived quantity `inodes_per_block`. -/
def Params.inodes_per_block (p : Params) : Nat := p.BLOCK_SIZE / p.num_inode_bytes

/-- Derived quantity `num_inode_blocks`. -/
def Params.num_inode_blocks (p : Params) : Nat := p.MAX_FILES_STORED / p.inodes_per_block

/-- Derived quantity `num_data_blocks`. -/
def Params.num_data_blocks (p : Params) : Nat := p.NUM_BLOCKS - p.num_inode_blocks - 2

/-- Derived quantity `first_data_block`. -/
def Params.first_data_block (p : Params) : Nat := 2 + p.num_inode_blocks

/-- Derived quantity `max_file_size`. -/
def Params.max_file_size (p : Params) : Nat := p.MAX_FILE_BLOCKS * p.BLOCK_SIZE

/-- The parameter instantiation used by the repository itself
(`FileSystem::<16, 64, 255, 8, 512, 32, 8>`). -/
def stdP : Params :=
  { MAX_OPEN := 16, BLOCK_SIZE := 64, NUM_BLOCKS := 255, MAX_FILE_BLOCKS := 8,
    MAX_FILE_BYTES := 512, MAX_FILES_STORED := 32, MAX_FILENAME_BYTES := 8 }

/-- A disk is the list of its blocks; each block a list of bytes. -/
abbrev Disk := List (List Nat)

/-- In-bounds byte indexing (`l[i]` in Rust; all claim-relevant uses stay in
bounds unless guarded). -/
def byteGet (l : List Nat) (i : Nat) : Nat := l.getD i 0

/-- Model of `RamDisk::read` into a caller buffer. -/
def diskRead (d : Disk) (i : Nat) : List Nat := d.getD i []

/-- Model of `RamDisk::write` of one block. -/
def diskWrite (d : Disk) (i : Nat) (b : List Nat) : Disk := d.set i b

/-- Overwrite the front of `l` with `vs`, keeping the tail of `l`
(writes beyond the end of `l` are dropped, like out-of-bounds `List.set`). -/
def overwriteFrom : List Nat → List Nat → List Nat
  | l, [] => l
  | [], _ :: _ => []
  | _ :: xs, v :: vs => v :: overwriteFrom xs vs

/-- Copy a byte sequence into a buffer starting at index `start`
(the `for`-loop pattern `buf[start + k] = vals[k]`); equivalent to the
iterated `List.set` but linear-time. -/
def writeRange : List Nat → Nat → List Nat → List Nat
  | l, 0, vs => overwriteFrom l vs
  | [], _ + 1, _ => []
  | x :: xs, start + 1, vs => x :: writeRange xs start vs

/-- Error enumeration `FileSystemError` of the source, verbatim. -/
inductive FileSystemError
  | FileNotFound
  | FileNotOpen
  | NotOpenForRead
  | NotOpenForWrite
  | TooManyOpen
  | TooManyFiles
  | AlreadyOpen
  | DiskFull
  | FileTooBig
  | FilenameTooLong
  deriving DecidableEq, Repr

/-- Result type `FileSystemResult` of the source. -/
inductive FileSystemResult (α : Type)
  | Ok (v : α)
  | Err (e : FileSystemError)
  deriving DecidableEq, Repr

/-- Record `Inode`: big-endian 16-bit length plus the block list with tail
replication. -/
structure Inode where
  bytes_stored : Nat
  blocks : List Nat
  deriving DecidableEq, Repr

/-- Record `FileInfo`: one open-table entry. -/
structure FileInfo where
  inode : Inode
  inode_num : Nat
  current_block : Nat
  offset : Nat
  writing : Bool
  reading : Bool
  block_buffer : List Nat
  deriving DecidableEq, Repr

/-- The `FileSystem` state: open table, disk, scratch buffers, per-inode
open flags.  (`open` is a Lean keyword, hence the field name `open_files`
for the Rust field `open`.) -/
structure FS where
  open_files : List (Option FileInfo)
  disk : Disk
  block_buffer : List Nat
  file_content_buffer : List Nat
  directory_buffer : List Nat
  open_inodes : List Bool
  deriving DecidableEq, Repr

/-- A freshly constructed file system over a zeroed RAM disk, at the
standard parameters (`FileSystem::new(RamDisk::new())`). -/
def freshFS : FS :=
  { open_files := List.replicate 16 none,
    disk := List.replicate 255 (List.replicate 64 0),
    block_buffer := List.replicate 64 0,
    file_content_buffer := List.replicate 512 0,
    directory_buffer := List.replicate 512 0,
    open_inodes := List.replicate 32 false }

/-- First clear bit (position `j`, scanning `j, j+1, ...` with 8 bits of
fuel) of one bitmap byte: the inner loop of `return_open_inode` /
`return_open_data`. -/
def firstClearBitAux (b : Nat) : Nat → Nat → Option Nat
  | _, 0 => none
  | j, fuel + 1 => if Nat.testBit b j then firstClearBitAux b (j + 1) fuel else some j

/-- First clear bit of a byte, if any. -/
def firstClearBit8 (b : Nat) : Option Nat := firstClearBitAux b 0 8

/-- Byte-then-bit scan of a bitmap block for the first clear bit, returning
`(byte_index, bit_index, linear_index)`; `(0,0,0)` when every scanned bit is
set (both Rust scanners fall through to a zero triple). -/
def scanFreeAux (buffer : List Nat) : Nat → Nat → Nat × Nat × Nat
  | _, 0 => (0, 0, 0)
  | i, fuel + 1 =>
    match firstClearBit8 (byteGet buffer i) with
    | some j => (i, j, 8 * i + j)
    | none => scanFreeAux buffer (i + 1) fuel

/-- Scanner `return_open_inode`: scan the inode bitmap (block 0). -/
def return_open_inode (p : Params) (s : FS) : Nat × Nat × Nat :=
  scanFreeAux (diskRead s.disk 0) 0 p.BLOCK_SIZE

/-- Scanner `return_open_data`: scan the data bitmap (block 1). -/
def return_open_data (p : Params) (s : FS) : Nat × Nat × Nat :=
  scanFreeAux (diskRead s.disk 1) 0 p.BLOCK_SIZE

/-- Streaming loop of `write_to_inode_table`: pours `bytes` into
`BLOCK_SIZE`-byte buffers and flushes them to consecutive blocks from
`start`.  Faithful to the source quirks: when `count + 1 = BLOCK_SIZE` the
block is flushed with its last byte still 0 and the streamed byte is
dropped, and after a flush the next byte lands at buffer index 1; a final
partial buffer is never flushed.  Arguments after `bytes`:
disk, buffer, count, start, total_count. -/
def writeTableAux (BS total : Nat) :
    List Nat → Disk → List Nat → Nat → Nat → Nat → Disk
  | [], disk, _, _, _, _ => disk
  | b :: rest, disk, buf, count, start, total_count =>
    if total ≤ total_count then disk
    else if count + 1 = BS then
      writeTableAux BS total rest (diskWrite disk start buf)
        (List.replicate BS 0) 1 (start + 1) (total_count + 1)
    else
      writeTableAux BS total rest disk (buf.set count b) (count + 1) start (total_count + 1)

/-- Operation `write_to_inode_table(start_block)`: stream the in-memory inode-table
image to disk.  The Rust function returns `self.file_content_buffer`
unchanged, so every call site `self.file_content_buffer =
self.write_to_inode_table(n)` only mutates the disk. -/
def write_to_inode_table (p : Params) (s : FS) (start_block : Nat) : FS :=
  { s with disk := (writeTableAux p.BLOCK_SIZE (p.MAX_FILES_STORED * p.num_inode_bytes)
      s.file_content_buffer s.disk (List.replicate p.BLOCK_SIZE 0) 0 start_block 0) }

/-- Index-search loop of `add_new_data_to_inode`: walk the inode block
slots `inode_start+2 .. inode_start+num_inode_bytes` and find the position
of the first entry equal to its predecessor (the first replicated-tail
slot); `index` starts at `inode_start + 3`. -/
def addNewIndexAux (fcb : List Nat) : Nat → Nat → Nat → Nat → Bool → Nat
  | _, 0, _, index, _ => index
  | i, fuel + 1, last_block, index, flag =>
    if ¬flag then addNewIndexAux fcb (i + 1) fuel (byteGet fcb i) index true
    else if byteGet fcb i = last_block then index
    else addNewIndexAux fcb (i + 1) fuel (byteGet fcb i) i true

/-- Operation `add_new_data_to_inode(inode_num, new_data_block)` on the raw pair
(image, disk): overwrite the located slot with the new block and rewrite
the inode table starting at block `2 + inode_start / BLOCK_SIZE`. -/
def add_new_data_core (p : Params) (fcb : List Nat) (disk : Disk)
    (inode_num new_data_block : Nat) : List Nat × Disk :=
  let inode_start := inode_num * p.num_inode_bytes
  let index := addNewIndexAux fcb (inode_start + 2) (p.num_inode_bytes - 2) 0
    (inode_start + 3) false
  let fcb := fcb.set index new_data_block
  (fcb, writeTableAux p.BLOCK_SIZE (p.MAX_FILES_STORED * p.num_inode_bytes)
    fcb disk (List.replicate p.BLOCK_SIZE 0) 0 (2 + inode_start / p.BLOCK_SIZE) 0)

/-- Operation `add_new_data_to_inode` as a state transformer. -/
def add_new_data_to_inode (p : Params) (s : FS) (inode_num new_data_block : Nat) : FS :=
  let (fcb, disk) := add_new_data_core p s.file_content_buffer s.disk inode_num new_data_block
  { s with file_content_buffer := fcb, disk := disk }

/-- Loop of `get_inode_table`: copy blocks `2 .. 2+num_inode_blocks` into
the inode-table image, block-major. -/
def loadTableAux (p : Params) (disk : Disk) : Nat → Nat → List Nat → List Nat
  | _, 0, fcb => fcb
  | i, fuel + 1, fcb =>
    loadTableAux p disk (i + 1) fuel (writeRange fcb (i * p.BLOCK_SIZE) (diskRead disk (i + 2)))

/-- Operation `get_inode_table`. -/
def get_inode_table (p : Params) (s : FS) : FS :=
  { s with file_content_buffer := loadTableAux p s.disk 0 p.num_inode_blocks s.file_content_buffer }

/-- Collect-distinct loop over a *value range* `lo..hi` (used on
`file_content_buffer[2] .. file_content_buffer[num_inode_bytes]` in
`get_directory`, `open_create` and `open_read`): values already contained in
the accumulator array (initially its fill value, which always includes 0 or
the first block) are skipped, new ones are stored at `arr[count]`.
Rust would panic if `count` ran past the array; `List.set` is then a no-op
(unreachable for the states the theorems touch). -/
def collectRangeAux (_MFB : Nat) : Nat → Nat → List Nat → Nat → List Nat × Nat
  | _, 0, arr, count => (arr, count)
  | v, fuel + 1, arr, count =>
    if arr.contains v then collectRangeAux _MFB (v + 1) fuel arr count
    else collectRangeAux _MFB (v + 1) fuel (arr.set count v) (count + 1)

/-- Collect-distinct loop over an *index range* of the inode-table image
(`for i in a..b { if !arr.contains(fcb[i]) { arr[count] = fcb[i]; ... } }`),
as used by the re-create branch of `open_create`, by `open_append` and by
`close`. -/
def collectIdxAux (_MFB : Nat) (fcb : List Nat) : Nat → Nat → List Nat → Nat → List Nat × Nat
  | _, 0, arr, count => (arr, count)
  | i, fuel + 1, arr, count =>
    if arr.contains (byteGet fcb i) then collectIdxAux _MFB fcb (i + 1) fuel arr count
    else collectIdxAux _MFB fcb (i + 1) fuel (arr.set count (byteGet fcb i)) (count + 1)

/-- Block-copy loop of `get_directory`: read `dir_blocks[i]` for
`i < count` into the directory image at offset `BLOCK_SIZE * i`. -/
def loadDirAux (p : Params) (disk : Disk) (dir_blocks : List Nat) (count : Nat) :
    Nat → Nat → List Nat → List Nat
  | _, 0, db => db
  | i, fuel + 1, db =>
    if i = count then db
    else loadDirAux p disk dir_blocks count (i + 1) fuel
      (writeRange db (p.BLOCK_SIZE * i) (diskRead disk (byteGet dir_blocks i)))

/-- Operation `get_directory`: reload the inode table, extract the block list of inode 0
from the value range `file_content_buffer[2] .. file_content_buffer[num_inode_bytes]`
(an *empty* range whenever the byte after the record of inode 0 is not larger
than its first block — the usual situation, so the in-memory directory
image is what persists between operations), then copy those blocks into the
directory image. -/
def get_directory (p : Params) (s : FS) : FS :=
  let s := get_inode_table p s
  let lo := byteGet s.file_content_buffer 2
  let hi := byteGet s.file_content_buffer p.num_inode_bytes
  let (dir_blocks, count) :=
    collectRangeAux p.MAX_FILE_BLOCKS lo (hi - lo) (List.replicate p.MAX_FILE_BLOCKS 0) 0
  { s with directory_buffer :=
      loadDirAux p s.disk dir_blocks count 0 p.MAX_FILE_BLOCKS s.directory_buffer }

/-- NUL-padded name buffer (`namebuffer`): the filename bytes followed by
zeros up to `MAX_FILENAME_BYTES`.  Callers must have checked
`filename.length ≤ MAX_FILENAME_BYTES`; the unchecked Rust copies panic
otherwise and are modelled by `none` at the call sites. -/
def padName (p : Params) (filename : List Nat) : List Nat :=
  filename ++ List.replicate (p.MAX_FILENAME_BYTES - filename.length) 0

/-- The directory-lookup loop shared (by textual duplication) by
`open_read`, `open_create` and `open_append`.  State: byte counter `count`,
slot counter `name_spot`, in-slot position `char_spot`, the always-true
`name_flag`, and the skip flag `ignore`.  Faithful quirks: on a full-slot
match the returned index is `name_spot + 1`, and the final-byte comparison
result is ignored (a slot whose first `MAX_FILENAME_BYTES - 1` bytes match
is reported found regardless of its last byte). -/
def dirLookupAux (MFNB : Nat) (nb : List Nat) :
    List Nat → Nat → Nat → Nat → Bool → Bool → Option Nat
  | [], _, _, _, _, _ => none
  | b :: rest, count, name_spot, char_spot, name_flag, ignore =>
    let st :=
      if ignore ∧ count % MFNB = 0 then (name_spot + 1, 0, true, false)
      else (name_spot, char_spot, name_flag, ignore)
    match st with
    | (name_spot, char_spot, name_flag, ignore) =>
      if ignore then dirLookupAux MFNB nb rest (count + 1) name_spot char_spot name_flag ignore
      else
        let ignore := if b ≠ byteGet nb (char_spot % MFNB) then true else ignore
        let char_spot := char_spot + 1
        if char_spot = MFNB ∧ name_flag = true then some (name_spot + 1)
        else dirLookupAux MFNB nb rest (count + 1) name_spot char_spot name_flag ignore

/-- Directory lookup over the directory image; `some i` means slot match
reporting inode index `i`, `none` means not found. -/
def dirLookup (p : Params) (nb dirbuf : List Nat) : Option Nat :=
  dirLookupAux p.MAX_FILENAME_BYTES nb dirbuf 0 0 0 true false

/-- Index of the first empty open-table slot. -/
def firstNoneIdx : List (Option FileInfo) → Nat → Option Nat
  | [], _ => none
  | none :: _, fd => some fd
  | some _ :: rest, fd => firstNoneIdx rest (fd + 1)

/-- The fd-assignment loop ending every successful open: place the entry in
the first empty slot and return its index.  When every slot is occupied the
Rust loop leaves `fd = MAX_OPEN`, stores nothing, and the caller still
returns `Ok(fd)`. -/
def placeEntry (opens : List (Option FileInfo)) (entry : FileInfo) :
    Nat × List (Option FileInfo) :=
  match firstNoneIdx opens 0 with
  | some fd => (fd, opens.set fd (some entry))
  | none => (opens.length, opens)

/-- Accumulator dedup at the top of `write_to_dir`: seed the array with
`dir_blocks[0]` everywhere, then append unseen values. -/
def dedupArrAux (_MFB : Nat) : List Nat → List Nat → Nat → List Nat × Nat
  | [], arr, n => (arr, n)
  | v :: rest, arr, n =>
    if arr.contains v then dedupArrAux _MFB rest arr n
    else dedupArrAux _MFB rest (arr.set n v) (n + 1)

/-- Streaming loop of `write_to_dir`: pour the directory image into blocks
`blocks[0], blocks[1], ...`, stopping as soon as the current target block
index is 0.  Same lossy pattern as `writeTableAux`: the byte hitting
`count = BLOCK_SIZE - 1` is dropped with the flush and the next block
starts filling at index 1; a final partial buffer is never flushed.
(Rust would index past `blocks` after `MAX_FILE_BLOCKS` flushes;
`byteGet` then yields 0 and the stream stops — unreachable in the states
the theorems touch.) -/
def writeDirStreamAux (p : Params) (blocks : List Nat) :
    List Nat → Disk → List Nat → Nat → Nat → Nat → Disk
  | [], disk, _, _, _, _ => disk
  | b :: rest, disk, buf, count, blocks_used, block =>
    if block = 0 then disk
    else if p.BLOCK_SIZE - 1 = count then
      writeDirStreamAux p blocks rest (diskWrite disk (byteGet blocks blocks_used) buf)
        (List.replicate p.BLOCK_SIZE 0) 1 (blocks_used + 1) (byteGet blocks (blocks_used + 1))
    else
      writeDirStreamAux p blocks rest disk (buf.set count b) (count + 1) blocks_used block

/-- Operation `write_to_dir(dir_blocks)`: write the directory image back to the
deduplicated block list.  The Rust function returns
`self.directory_buffer` unchanged, so it only mutates the disk. -/
def write_to_dir (p : Params) (s : FS) (dir_blocks : List Nat) : FS :=
  let db := dedupArrAux p.MAX_FILE_BLOCKS dir_blocks
    (List.replicate p.MAX_FILE_BLOCKS (byteGet dir_blocks 0)) 1
  { s with disk := (writeDirStreamAux p db.1 s.directory_buffer s.disk
      (List.replicate p.BLOCK_SIZE 0) 0 0 (byteGet db.1 0)) }

/-- Operation `open_read(filename)`. -/
def open_read (p : Params) (s : FS) (filename : List Nat) :
    Option (FileSystemResult Nat × FS) :=
  let s := get_directory p s
  if p.MAX_FILENAME_BYTES < filename.length then none
  else
    let nb := padName p filename
    match dirLookup p nb s.directory_buffer with
    | none => some (.Err .FileNotFound, s)
    | some name_spot =>
      if s.open_inodes.getD name_spot false then some (.Err .AlreadyOpen, s)
      else
        let inode_start := name_spot * p.num_inode_bytes
        let data := Nat.lor
          (Nat.shiftLeft (byteGet s.file_content_buffer inode_start) 8)
          (byteGet s.file_content_buffer (inode_start + 1))
        let e0 := byteGet s.file_content_buffer (inode_start + 2)
        let hi := byteGet s.file_content_buffer (inode_start + p.num_inode_bytes)
        let ib := collectRangeAux p.MAX_FILE_BLOCKS e0 (hi - e0)
          (List.replicate p.MAX_FILE_BLOCKS e0) 1
        let new_buffer := diskRead s.disk (byteGet ib.1 0)
        let entry : FileInfo :=
          { inode := { bytes_stored := data, blocks := ib.1 },
            inode_num := name_spot,
            current_block := byteGet ib.1 0,
            offset := 0, writing := false, reading := true,
            block_buffer := new_buffer }
        let s := { s with open_inodes := s.open_inodes.set name_spot true }
        let fo := placeEntry s.open_files entry
        some (.Ok fo.1, { s with open_files := fo.2 })

/-- Bit-marking loop of the first-create bootstrap in `open_create`
(`for i in 0..active_blocks+1 { buffer2[i/8] |= 1 << (i%8) }`). -/
def markBitsAux : List Nat → Nat → Nat → List Nat
  | b2, _, 0 => b2
  | b2, i, fuel + 1 =>
    markBitsAux (b2.set (i / 8) (Nat.lor (byteGet b2 (i / 8)) (Nat.shiftLeft 1 (i % 8))))
      (i + 1) fuel

/-- The dead partial load of the inode table in `open_create`
(`for i in 2..num_inode_blocks()`: it reads blocks `2 ..
num_inode_blocks` — not `2 .. 2+num_inode_blocks` — into the image; the
result is overwritten by `get_directory` right after). -/
def buggyLoadAux (p : Params) (disk : Disk) : List Nat → Nat → Nat → Nat → List Nat
  | fcb, _, _, 0 => fcb
  | fcb, i, icount, fuel + 1 =>
    buggyLoadAux p disk (writeRange fcb (icount * p.BLOCK_SIZE) (diskRead disk i))
      (i + 1) (icount + 1) fuel

/-- Re-create zeroing loop of `open_create` over
`inode_start .. inode_start + num_inode_bytes`: the two length bytes are
zeroed, the first block entry is remembered in `using`, and later entries
are overwritten with it.  The bit-clearing `data_buffer[i / MAX_FILE_BLOCKS]
&= !(1 << (i % 8))` acts on a *local zero buffer* that the caller
immediately clobbers with a disk read, so no bitmap bit is actually
cleared; it is modelled here and its result discarded exactly as in the
source. -/
def recreateAux (p : Params) : List Nat → List Nat → Nat → Nat → Nat → Nat → List Nat × List Nat
  | fcb, db, _, _, _, 0 => (fcb, db)
  | fcb, db, i, c, usingB, fuel + 1 =>
    let fcb := if c < 2 then fcb.set i 0 else fcb
    let usingB := if c = 2 then byteGet fcb i else usingB
    let db :=
      if 2 < c then
        db.set (i / p.MAX_FILE_BLOCKS)
          (Nat.land (byteGet db (i / p.MAX_FILE_BLOCKS))
            (Nat.xor 255 (Nat.shiftLeft 1 (i % 8))))
      else db
    let fcb := if 2 < c then fcb.set i usingB else fcb
    recreateAux p fcb db (i + 1) (c + 1) usingB fuel

/-- Block-reload loop in the new-file branch of `open_create`
(`for i in dir_blocks { if i == 0 break; ... }`): copy each listed block
into the directory image. -/
def reloadDirAux (p : Params) (disk : Disk) : List Nat → Nat → List Nat → List Nat
  | [], _, db => db
  | b :: rest, bc, db =>
    if b = 0 then db
    else reloadDirAux p disk rest (bc + 1) (writeRange db (p.BLOCK_SIZE * bc) (diskRead disk b))

/-- Opening phase of `open_create`, before the directory lookup: read the
two bitmap blocks, run the lazy first-create format when bit 0 of the
inode bitmap is clear, perform the dead partial table load (its result is
overwritten by `get_directory` right after; the subsequent local
`dir_blocks` scan of the source mutates no state and is omitted), and
reload the directory.  Returns the resulting state together with the local
`buffer` and `buffer2` bitmap copies. -/
def createPrelude (p : Params) (s : FS) : FS × List Nat × List Nat :=
  let buffer := diskRead s.disk 0
  let buffer2 := diskRead s.disk 1
  let boot :=
    if Nat.land (byteGet buffer 0) 1 = 0 then
      let active_blocks := 2 + p.num_inode_blocks
      let buffer2 := markBitsAux buffer2 0 (active_blocks + 1)
      let buffer := buffer.set 0 1
      let disk := diskWrite (diskWrite s.disk 1 buffer2) 0 buffer
      let data_block := 2 + p.num_inode_blocks
      let inode_buffer := diskRead disk 2
      let inode_buffer := (inode_buffer.set 0 0).set 1 0
      let inode_buffer := writeRange inode_buffer 2 (List.replicate p.MAX_FILE_BLOCKS data_block)
      let disk := diskWrite disk 2 inode_buffer
      ({ s with disk := disk }, buffer, buffer2)
    else (s, buffer, buffer2)
  match boot with
  | (s, buffer, buffer2) =>
    let s := { s with file_content_buffer :=
                buggyLoadAux p s.disk s.file_content_buffer 2 0 (p.num_inode_blocks - 2) }
    (get_directory p s, buffer, buffer2)

/-- Operation `open_create(filename)`. -/
def open_create (p : Params) (s : FS) (filename : List Nat) :
    Option (FileSystemResult Nat × FS) :=
  if p.MAX_FILENAME_BYTES < filename.length then some (.Err .FilenameTooLong, s)
  else
  let nb := padName p filename
  match createPrelude p s with
  | (s, _buffer, buffer2) =>
  match dirLookup p nb s.directory_buffer with
  | some inode_num =>
    -- re-create of an existing (closed) file
    if s.open_inodes.getD inode_num false then some (.Err .AlreadyOpen, s)
    else
      let inode_start := inode_num * p.num_inode_bytes
      let rz := recreateAux p s.file_content_buffer (List.replicate p.BLOCK_SIZE 0)
        inode_start 0 0 p.num_inode_bytes
      let s := { s with file_content_buffer := rz.1 }
      let s := write_to_inode_table p s 2
      -- data_buffer is re-read from block 1 and written back: the data
      -- bitmap is rewritten unchanged
      let s := { s with disk := diskWrite s.disk 1 (diskRead s.disk 1) }
      let data := Nat.lor
        (Nat.shiftLeft (byteGet s.file_content_buffer inode_start) 8)
        (byteGet s.file_content_buffer (inode_start + 1))
      let ib := collectIdxAux p.MAX_FILE_BLOCKS s.file_content_buffer (inode_start + 2)
        (p.num_inode_bytes - 2) (List.replicate p.MAX_FILE_BLOCKS 0) 0
      let new_buffer := diskRead s.disk (byteGet ib.1 0)
      let entry : FileInfo :=
        { inode := { bytes_stored := data, blocks := ib.1 },
          inode_num := inode_num,
          current_block := byteGet ib.1 0,
          offset := 0, writing := false, reading := false,
          block_buffer := new_buffer }
      -- note: open_inodes[inode_num] is NOT set on this path
      let fo := placeEntry s.open_files entry
      some (.Ok fo.1, { s with open_files := fo.2 })
  | none =>
    -- brand-new file
    if byteGet buffer2 (p.BLOCK_SIZE - 1) = 255 then some (.Err .DiskFull, s)
    else
      let buffer := diskRead s.disk 0
      let inode_stuff := return_open_inode p s
      if inode_stuff.2.2 = p.MAX_FILES_STORED then some (.Err .TooManyFiles, s)
      else
        let inode_num := inode_stuff.2.2
        -- `(inode_num - 1) as usize` below underflows (debug panic) when the
        -- scanner returned the zero triple
        if inode_num = 0 then none
        else
        let buffer := buffer.set inode_stuff.1
          (Nat.lor (byteGet buffer inode_stuff.1) (Nat.shiftLeft 1 inode_stuff.2.1))
        let s := { s with disk := diskWrite s.disk 0 buffer }
        let buffer2 := diskRead s.disk 1
        let data_block := return_open_data p s
        let buffer2 := buffer2.set data_block.1
          (Nat.lor (byteGet buffer2 data_block.1) (Nat.shiftLeft 1 data_block.2.1))
        let blocks0 := data_block.2.2
        let inode_start := inode_num * p.num_inode_bytes
        let iblock := 2 + inode_start / p.BLOCK_SIZE
        let s := { s with disk := diskWrite s.disk 1 buffer2 }
        let fcb := (s.file_content_buffer.set inode_start 0).set (inode_start + 1) 0
        let fcb := writeRange fcb (inode_start + 2) (List.replicate p.MAX_FILE_BLOCKS blocks0)
        let s := { s with file_content_buffer := fcb }
        let s := write_to_inode_table p s iblock
        let dir_index := p.MAX_FILENAME_BYTES * (inode_num - 1)
        let index_start := dir_index % p.BLOCK_SIZE
        let grown :=
          if p.BLOCK_SIZE - index_start < p.MAX_FILENAME_BYTES then
            let new_dblock := return_open_data p s
            let buffer2 := buffer2.set new_dblock.1
              (Nat.lor (byteGet buffer2 new_dblock.1) (Nat.shiftLeft 1 new_dblock.2.1))
            let s := add_new_data_to_inode p s 0 new_dblock.2.2
            ({ s with disk := diskWrite s.disk 1 buffer2 }, buffer2)
          else (s, buffer2)
        match grown with
        | (s, _buffer2) =>
        let lo := byteGet s.file_content_buffer 2
        let hi := byteGet s.file_content_buffer p.num_inode_bytes
        let dbl := collectRangeAux p.MAX_FILE_BLOCKS lo (hi - lo)
          (List.replicate p.MAX_FILE_BLOCKS 0) 0
        let s := { s with directory_buffer :=
                    reloadDirAux p s.disk dbl.1 0 s.directory_buffer }
        let s := { s with directory_buffer := writeRange s.directory_buffer index_start nb }
        let s := write_to_dir p s dbl.1
        let block_buffer := diskRead s.disk blocks0
        let entry : FileInfo :=
          { inode := { bytes_stored := 0, blocks := List.replicate p.MAX_FILE_BLOCKS blocks0 },
            inode_num := inode_num,
            current_block := blocks0,
            offset := 0, writing := false, reading := false,
            block_buffer := block_buffer }
        let fo := placeEntry s.open_files entry
        let s := { s with open_files := fo.2, open_inodes := s.open_inodes.set inode_num true }
        some (.Ok fo.1, s)

/-- Count of leading nonzero entries (`for i in inode_blocks { if i == 0
break; c2 += 1 }` in `open_append`). -/
def leadingNonzero : List Nat → Nat
  | [] => 0
  | v :: rest => if v = 0 then 0 else leadingNonzero rest + 1

/-- Index of the first zero byte of a buffer, or the `offset = 0` default
when the buffer holds no zero byte (the append-point scan of
`open_append`). -/
def firstZeroIdxAux : List Nat → Nat → Option Nat
  | [], _ => none
  | v :: rest, i => if v = 0 then some i else firstZeroIdxAux rest (i + 1)

/-- The append-point offset. -/
def firstZeroIdx (l : List Nat) : Nat := (firstZeroIdxAux l 0).getD 0

/-- Operation `open_append(filename)`. -/
def open_append (p : Params) (s : FS) (filename : List Nat) :
    Option (FileSystemResult Nat × FS) :=
  let s := get_directory p s
  if p.MAX_FILENAME_BYTES < filename.length then none
  else
    let nb := padName p filename
    match dirLookup p nb s.directory_buffer with
    | none => some (.Err .FileNotFound, s)
    | some name_spot =>
      if s.open_inodes.getD name_spot false then some (.Err .AlreadyOpen, s)
      else
        let inode_start := name_spot * p.num_inode_bytes
        let data := Nat.lor
          (Nat.shiftLeft (byteGet s.file_content_buffer inode_start) 8)
          (byteGet s.file_content_buffer (inode_start + 1))
        let ib := collectIdxAux p.MAX_FILE_BLOCKS s.file_content_buffer (inode_start + 2)
          (p.num_inode_bytes - 2) (List.replicate p.MAX_FILE_BLOCKS 0) 0
        let c2 := leadingNonzero ib.1
        let current := if c2 ≠ 0 then byteGet ib.1 (c2 - 1) else byteGet ib.1 c2
        let new_buffer := diskRead s.disk current
        let offset := firstZeroIdx new_buffer
        let entry : FileInfo :=
          { inode := { bytes_stored := data, blocks := ib.1 },
            inode_num := name_spot,
            current_block := current,
            offset := offset, writing := true, reading := false,
            block_buffer := new_buffer }
        let s := { s with open_inodes := s.open_inodes.set name_spot true }
        let fo := placeEntry s.open_files entry
        some (.Ok fo.1, { s with open_files := fo.2 })

/-- Unique-block scan at the top of `read`: walk the inode entries in the
table image, recording unseen values from array position 1 on and noting
the position `used` of the entry equal to the current block.  Because the
insertion position starts at 1, a file whose entries hold `MAX_FILE_BLOCKS`
distinct nonzero blocks drives the insertion index to `MAX_FILE_BLOCKS`:
`unique_blocks[count]` is then out of bounds and Rust panics, modelled by
`none`. -/
def readCollectAux (MFB : Nat) (fcb : List Nat) (cur : Nat) :
    Nat → Nat → List Nat → Nat → Nat → Option (List Nat × Nat × Nat)
  | _, 0, arr, count, used => some (arr, count, used)
  | i, fuel + 1, arr, count, used =>
    let v := byteGet fcb i
    if arr.contains v then readCollectAux MFB fcb cur (i + 1) fuel arr count used
    else if MFB ≤ count then none
    else
      readCollectAux MFB fcb cur (i + 1) fuel (arr.set count v) (count + 1)
        (if cur = v then count else used)

/-- Byte-copy loop of `read`.  Per iteration: stop when the block cursor
`used` has caught up with `count`, re-read the current block from disk,
stop at a zero byte, and either advance within the block or (at offset
`BLOCK_SIZE - 1`) emit the byte and hop to the next unique block.  Returns
(bytes_read, collected output bytes, final block, final offset). -/
def readLoopAux (p : Params) (disk : Disk) (unique_blocks : List Nat) (count : Nat) :
    Nat → Nat → Nat → Nat → List Nat → Nat → Nat × List Nat × Nat × Nat
  | 0, _used, block, off, acc, br => (br, acc, block, off)
  | fuel + 1, used, block, off, acc, br =>
    if count = used then (br, acc, block, off)
    else
      let disk_buffer := diskRead disk block
      if byteGet disk_buffer off = 0 then (br, acc, block, off)
      else if off = p.BLOCK_SIZE - 1 then
        if count = used then (br, acc, block, off)
        else
          readLoopAux p disk unique_blocks count fuel (used + 1)
            (byteGet unique_blocks (used + 1)) 0
            (acc ++ [byteGet disk_buffer off]) (br + 1)
      else
        readLoopAux p disk unique_blocks count fuel used block (off + 1)
          (acc ++ [byteGet disk_buffer off]) (br + 1)

/-- Operation `read(fd, buffer)` for an output buffer of `buf_len` bytes.  The result
carries the bytes copied into the caller buffer as a list. -/
def read (p : Params) (s : FS) (fd : Nat) (buf_len : Nat) :
    Option (FileSystemResult Nat × List Nat × FS) :=
  if p.MAX_OPEN ≤ fd then none
  else match s.open_files.getD fd none with
  | none => some (.Err .FileNotOpen, [], s)
  | some e =>
    if e.writing then some (.Err .NotOpenForRead, [], s)
    else
      let inode_start := e.inode_num * p.num_inode_bytes + 2
      match readCollectAux p.MAX_FILE_BLOCKS s.file_content_buffer e.current_block
          inode_start (p.num_inode_bytes - 2) (List.replicate p.MAX_FILE_BLOCKS 0) 1 0 with
      | none => none
      | some col =>
        let r := readLoopAux p s.disk col.1 col.2.1 buf_len col.2.2 e.current_block
          e.offset [] 0
        let e := { e with current_block := r.2.2.1, offset := r.2.2.2 }
        some (.Ok r.1, r.2.1, { s with open_files := s.open_files.set fd (some e) })

/-- Disk-full scan at the top of `write`: walk the data-bitmap bytes;
a byte below 255 means not full, and reaching the byte counter
`NUM_BLOCKS / MAX_FILE_BLOCKS` with every byte so far equal to 255 means
full.  (`block_full` is initialised `true` in the source, so an exhausted
loop also reports full.) -/
def scanDataFullAux (cap : Nat) : List Nat → Nat → Bool
  | [], _ => true
  | b :: rest, cnt =>
    if b ≠ 255 then false
    else if cnt = cap then true
    else scanDataFullAux cap rest (cnt + 1)

/-- Distinct-block scan at the top of `write`, over the entry index range
`inode_start .. inode_start + num_inode_bytes - 2`; `none` models the
(dead) `count == MAX_FILE_BLOCKS → FileTooBig` early return. -/
def writeCollectAux (MFB : Nat) (fcb : List Nat) :
    Nat → Nat → List Nat → Nat → Option (List Nat × Nat)
  | _, 0, arr, count => some (arr, count)
  | i, fuel + 1, arr, count =>
    if arr.contains (byteGet fcb i) then writeCollectAux MFB fcb (i + 1) fuel arr count
    else if count = MFB then none
    else writeCollectAux MFB fcb (i + 1) fuel (arr.set count (byteGet fcb i)) (count + 1)

/-- Byte loop of `write`.  Per input byte: with `flag` set (the file
already had `MAX_FILE_BLOCKS` distinct blocks on entry) the
second-to-last byte of the last block is probed on disk and a nonzero
value aborts with FileTooBig — `Sum.inl` carries the disk and image
already mutated by earlier flushes, since the Rust early return skips
only the final flush and the open-table store.  Otherwise the byte goes
into the entry block buffer; on a full buffer the block is flushed, a
fresh data block is allocated and appended to the inode, and the bitmap
updated — even when no further byte follows. -/
def writeByteLoopAux (p : Params) (flag : Bool) (blocks : List Nat) (inode_num : Nat) :
    List Nat → List Nat → Disk → List Nat → List Nat → Nat → Nat →
    Sum (Disk × List Nat) (Disk × List Nat × List Nat × Nat × Nat)
  | [], _, disk, fcb, bbuf, cur, off => Sum.inr (disk, fcb, bbuf, cur, off)
  | b :: rest, datatable, disk, fcb, bbuf, cur, off =>
    if flag ∧ byteGet (diskRead disk (byteGet blocks (p.MAX_FILE_BLOCKS - 1)))
        (p.BLOCK_SIZE - 2) ≠ 0 then
      Sum.inl (disk, fcb)
    else
      let bbuf := bbuf.set off b
      let off := off + 1
      if off = p.BLOCK_SIZE then
        let disk := diskWrite disk cur bbuf
        let nbk := scanFreeAux (diskRead disk 1) 0 p.BLOCK_SIZE
        let datatable := datatable.set nbk.1
          (Nat.lor (byteGet datatable nbk.1) (Nat.shiftLeft 1 nbk.2.1))
        let disk := diskWrite disk 1 datatable
        let fd2 := add_new_data_core p fcb disk inode_num nbk.2.2
        writeByteLoopAux p flag blocks inode_num rest datatable fd2.2 fd2.1
          (List.replicate p.BLOCK_SIZE 0) nbk.2.2 0
      else
        writeByteLoopAux p flag blocks inode_num rest datatable disk fcb bbuf cur off

/-- Operation `write(fd, buffer)`. -/
def write (p : Params) (s : FS) (fd : Nat) (input : List Nat) :
    Option (FileSystemResult Unit × FS) :=
  if p.MAX_OPEN ≤ fd then none
  else match s.open_files.getD fd none with
  | none => some (.Err .FileNotOpen, s)
  | some e =>
    if e.reading then some (.Err .NotOpenForWrite, s)
    else
      let datatable := diskRead s.disk 1
      if scanDataFullAux (p.NUM_BLOCKS / p.MAX_FILE_BLOCKS) datatable 0 then
        some (.Err .DiskFull, s)
      else
        let inode_start := e.inode_num * p.num_inode_bytes + 2
        match writeCollectAux p.MAX_FILE_BLOCKS s.file_content_buffer inode_start
            (p.num_inode_bytes - 2) (List.replicate p.MAX_FILE_BLOCKS 0) 0 with
        | none => some (.Err .FileTooBig, s)
        | some (blocks, _count) =>
          let flag := !(blocks.contains 0)
          let e := { e with writing := true }
          match writeByteLoopAux p flag blocks e.inode_num input datatable s.disk
              s.file_content_buffer e.block_buffer e.current_block e.offset with
          | Sum.inl (disk, fcb) =>
            some (.Err .FileTooBig, { s with disk := disk, file_content_buffer := fcb })
          | Sum.inr (disk, fcb, bbuf, cur, off) =>
            let disk := diskWrite disk cur bbuf
            let e := { e with block_buffer := bbuf, current_block := cur, offset := off }
            let s := { s with disk := disk, file_content_buffer := fcb }
            some (.Ok (), { s with open_files := s.open_files.set fd (some e) })

/-- Count of bytes up to (excluding) the first zero byte of a block
(the inner byte-count loop of `close`). -/
def countNonzero : List Nat → Nat
  | [] => 0
  | v :: rest => if v ≠ 0 then countNonzero rest + 1 else 0

/-- Outer length-recompute loop of `close`: sum the nonzero prefixes of
`used_blocks[0] .. used_blocks[count-1]`. -/
def sumBlockBytesAux (disk : Disk) (used_blocks : List Nat) : Nat → Nat → Nat
  | _, 0 => 0
  | i, fuel + 1 =>
    countNonzero (diskRead disk (byteGet used_blocks i)) + sumBlockBytesAux disk used_blocks (i + 1) fuel

/-- Operation `close(fd)`. -/
def close (p : Params) (s : FS) (fd : Nat) : Option (FileSystemResult Unit × FS) :=
  if p.MAX_OPEN ≤ fd then none
  else match s.open_files.getD fd none with
  | none => some (.Err .FileNotFound, s)
  | some e =>
    let s := get_inode_table p s
    let inode_start := e.inode_num * p.num_inode_bytes
    let e0 := byteGet s.file_content_buffer (inode_start + 2)
    let ub := collectIdxAux p.MAX_FILE_BLOCKS s.file_content_buffer (inode_start + 2)
      (p.num_inode_bytes - 2) (List.replicate p.MAX_FILE_BLOCKS e0) 1
    let total_bytes := sumBlockBytesAux s.disk ub.1 0 ub.2
    let fcb := (s.file_content_buffer.set inode_start (total_bytes / 256 % 256)).set
      (inode_start + 1) (total_bytes % 256)
    let s := { s with file_content_buffer := fcb }
    let s := write_to_inode_table p s (2 + inode_start / p.BLOCK_SIZE)
    let s := { s with open_files := s.open_files.set fd none }
    some (.Ok (), { s with open_inodes := s.open_inodes.set e.inode_num false })

/-- Slot-copy loop of `list_directory`: count slots whose first byte is
nonzero, copying bytes into the output array, and stop at the first slot
whose first byte is zero. -/
def listDirAux (MFNB : Nat) : List Nat → Nat → Nat → List (List Nat) → Nat × List (List Nat)
  | [], _, count, files => (count, files)
  | c :: rest, i, count, files =>
    if i % MFNB = 0 ∧ c ≠ 0 then
      listDirAux MFNB rest (i + 1) (count + 1)
        (files.set count ((files.getD count []).set (i % MFNB) c))
    else if i % MFNB ≠ 0 then
      listDirAux MFNB rest (i + 1) count
        (files.set (count - 1) ((files.getD (count - 1) []).set (i % MFNB) c))
    else (count, files)

/-- Operation `list_directory()`. -/
def list_directory (p : Params) (s : FS) :
    Option (FileSystemResult (Nat × List (List Nat)) × FS) :=
  let s := get_directory p s
  let r := listDirAux p.MAX_FILENAME_BYTES s.directory_buffer 0 0
    (List.replicate p.MAX_FILES_STORED (List.replicate p.MAX_FILENAME_BYTES 0))
  some (.Ok r, s)

/-! Scenario material: spec-side definitions, drivers (test harness only,
not part of the source) and concrete scenario states used by the theorems
below. -/

set_option maxRecDepth 100000

/-- ASCII bytes of the filename `one.txt` used by the repository tests. -/
def nameOne : List Nat := [111, 110, 101, 46, 116, 120, 116]

/-- A nine-byte filename (`abcdefghi`), one byte longer than
`MAX_FILENAME_BYTES = 8`. -/
def nameNine : List Nat := [97, 98, 99, 100, 101, 102, 103, 104, 105]

/-- The filename `fXY` with two decimal digits of `i`. -/
def scenarioName (i : Nat) : List Nat := [102, 48 + i / 10, 48 + i % 10]

/-- Create files `scenarioName i, scenarioName (i+1), ...` in order,
leaving each open; `none` as soon as one create is not `Ok`. -/
def createRepeat : Nat → Nat → FS → Option FS
  | 0, _, s => some s
  | n + 1, i, s =>
    match open_create stdP s (scenarioName i) with
    | some (.Ok _, s2) => createRepeat n (i + 1) s2
    | _ => none

/-- Like `createRepeat`, but close each file right after creating it. -/
def createCloseRepeat : Nat → Nat → FS → Option FS
  | 0, _, s => some s
  | n + 1, i, s =>
    match open_create stdP s (scenarioName i) with
    | some (.Ok fd, s2) =>
      match close stdP s2 fd with
      | some (.Ok _, s3) => createCloseRepeat n (i + 1) s3
      | _ => none
    | _ => none

/-- Number of set bits of one bitmap byte. -/
def popcountByte (b : Nat) : Nat := (List.range 8).countP (fun j => b.testBit j)

/-- Number of set bits of a bitmap block. -/
def popcountBytes (l : List Nat) : Nat := (l.map popcountByte).sum

/-- Content of 448 nonzero bytes: the ASCII alphabet repeated. -/
def c1Bytes : List Nat := (List.range 448).map (fun i => 65 + i % 26)

/-- State after `open_create("one.txt")` on a fresh file system. -/
def c1s1 : Option FS := (open_create stdP freshFS nameOne).map Prod.snd

/-- State after writing the 448 bytes. -/
def c1s2 : Option FS := c1s1.bind fun s => (write stdP s 0 c1Bytes).map Prod.snd

/-- State after closing. -/
def c1s3 : Option FS := c1s2.bind fun s => (close stdP s 0).map Prod.snd

/-- State after re-opening for reading. -/
def c1s4 : Option FS := c1s3.bind fun s => (open_read stdP s nameOne).map Prod.snd

/-- State after creating `one.txt` and writing 150 copies of byte 65
(three data blocks: 8, 9, 10), then closing. -/
def c2sClosed : Option FS :=
  ((open_create stdP freshFS nameOne).map Prod.snd).bind fun s =>
    ((write stdP s 0 (List.replicate 150 65)).map Prod.snd).bind fun s2 =>
      (close stdP s2 0).map Prod.snd

/-- State after re-creating `one.txt` over the three-block file. -/
def c2sRecreated : Option FS :=
  c2sClosed.bind fun s => (open_create stdP s nameOne).map Prod.snd

/-- State after writing the five bytes `BBBBB` to the re-created file and
closing it. -/
def c2sRewritten : Option FS :=
  c2sRecreated.bind fun s =>
    ((write stdP s 0 [66, 66, 66, 66, 66]).map Prod.snd).bind fun s2 =>
      (close stdP s2 0).map Prod.snd

/-- Content of 511 nonzero bytes (byte value 65). -/
def c3Bytes : List Nat := List.replicate 511 65

/-- State after `open_create("one.txt")` on a fresh file system and a
write of 511 nonzero bytes, accepted with `Ok`; the file then holds
`MAX_FILE_BLOCKS = 8` distinct blocks with one free byte slot left in the
last one. -/
def c3s511 : Option FS :=
  ((open_create stdP freshFS nameOne).map Prod.snd).bind fun s =>
    (write stdP s 0 c3Bytes).map Prod.snd

/-- Placeholder entry used only to unwrap optional values in witness
statements. -/
def dummyEntry : FileInfo :=
  { inode := { bytes_stored := 0, blocks := [] }, inode_num := 0, current_block := 0,
    offset := 0, writing := false, reading := false, block_buffer := [] }

/-- The concrete 511-byte state, unwrapped. -/
def c3w : FS := c3s511.getD freshFS

/-- Open entry of descriptor 0 in `c3w`. -/
def c3wEntry : FileInfo := (c3w.open_files.getD 0 none).getD dummyEntry

/-- Distinct-block scan result for the file of `c3wEntry`. -/
def c3wCol : List Nat × Nat :=
  (writeCollectAux 8 c3w.file_content_buffer (c3wEntry.inode_num * 10 + 2) 8
    (List.replicate 8 0) 0).getD ([], 0)

/-- State with all 16 open-table slots occupied: 16 files created and left
open. -/
def c4sFull : Option FS := createRepeat 16 1 freshFS

/-- State after creating the file `a` (single byte 97) on a fresh file
system; the allocated inode index is 1. -/
def c7s : Option FS := (open_create stdP freshFS [97]).map Prod.snd

/-- State after nine successful creates (`f01` .. `f09`) on a fresh file
system. -/
def c9s : Option FS := createRepeat 9 1 freshFS

/-- State after creating and closing `f01` .. `f05`, then creating `f06`
(inode 6, whose serialized record occupies table-image bytes 60..69,
crossing the 64-byte boundary of the first inode-table block) and keeping
it open in slot 0. -/
def c6sOpen : Option FS :=
  (createCloseRepeat 5 1 freshFS).bind fun s =>
    (open_create stdP s (scenarioName 6)).map Prod.snd

/-- State after closing `f06`. -/
def c6sClosed : Option FS := c6sOpen.bind fun s => (close stdP s 0).map Prod.snd

/-- Claim-side predicate: the data bitmap has no zero bit — every one of
the `NUM_BLOCKS` block bits is set. -/
def dataBitmapFull (p : Params) (block1 : List Nat) : Prop :=
  ∀ k, k < p.NUM_BLOCKS → Nat.testBit (byteGet block1 (k / 8)) (k % 8) = true

instance (p : Params) (block1 : List Nat) : Decidable (dataBitmapFull p block1) :=
  Nat.decidableBallLT _ _

/-- Claim-side helper: first occurrences of the values of a list, in
order (the set of distinct blocks of an inode, as a list). -/
def firstOccurrences (l : List Nat) : List Nat :=
  l.foldl (fun acc v => if v ∈ acc then acc else acc ++ [v]) []

/-- A data bitmap with every in-range bit set: bytes 0..30 are 255 and
byte 31 is 127 (bits 248..254); bit 255 — which corresponds to no block,
since `NUM_BLOCKS = 255` — is the only clear bit among the first 32
bytes. -/
def c8Bitmap : List Nat := List.replicate 31 255 ++ [127] ++ List.replicate 32 0

/-- An open entry for inode 1, writing mode, whose file owns the eight
distinct blocks 40..47; the current block 47 is empty. -/
def c8Entry : FileInfo :=
  { inode := { bytes_stored := 448, blocks := [40, 41, 42, 43, 44, 45, 46, 47] },
    inode_num := 1, current_block := 47, offset := 0,
    writing := true, reading := false, block_buffer := List.replicate 64 0 }

/-- A file-system state in which the data bitmap is completely used (all
255 in-range bits set) and the file open at descriptor 0 already has
`MAX_FILE_BLOCKS = 8` distinct blocks: such a state arises after the data
region fills up (31 files of 8 blocks use all 248 data blocks). -/
def c8FS : FS :=
  { open_files := some c8Entry :: List.replicate 15 none,
    disk := (List.replicate 255 (List.replicate 64 0)).set 1 c8Bitmap,
    block_buffer := List.replicate 64 0,
    file_content_buffer :=
      writeRange (List.replicate 512 0) 10 [1, 192, 40, 41, 42, 43, 44, 45, 46, 47],
    directory_buffer := List.replicate 512 0,
    open_inodes := List.replicate 32 false }

/-- A data bitmap block whose first 32 bytes are all 255 (the shape the
disk-full scan actually tests for). -/
def c8wBitmap : List Nat := List.replicate 32 255 ++ List.replicate 32 0

/-- State `c8FS` with the scan-matching bitmap installed. -/
def c8wFS : FS :=
  { c8FS with disk := (List.replicate 255 (List.replicate 64 0)).set 1 c8wBitmap }

/-- Concrete state for the read-frame witness: `one.txt` created with three
bytes written, closed, and re-opened for reading at descriptor 0. -/
def c10s : FS :=
  (((((open_create stdP freshFS nameOne).map Prod.snd).bind fun s =>
      (write stdP s 0 [84, 104, 105]).map Prod.snd).bind fun s =>
      (close stdP s 0).map Prod.snd).bind fun s =>
      (open_read stdP s nameOne).map Prod.snd).getD freshFS

/-- Result component of the witness read. -/
def c10r : FileSystemResult Nat :=
  ((read stdP c10s 0 50).map (fun t => t.1)).getD (FileSystemResult.Err FileSystemError.FileNotFound)

/-- Output bytes of the witness read. -/
def c10bytes : List Nat := ((read stdP c10s 0 50).map (fun t => t.2.1)).getD []

/-- Post-state of the witness read. -/
def c10s2 : FS := ((read stdP c10s 0 50).map (fun t => t.2.2)).getD freshFS

/-! Helper lemmas. -/

/-- Reading `List.getD` through an update at a different index. -/
theorem getD_set_ne {α : Type} (l : List α) (i j : Nat) (v d : α) (h : i ≠ j) :
    (l.set i v).getD j d = l.getD j d := by
  simp [List.getD_eq_getElem?_getD, List.getElem?_set_ne h]

/-- Length is preserved by `overwriteFrom`. -/
theorem overwriteFrom_length (l vs : List Nat) :
    (overwriteFrom l vs).length = l.length := by
  induction l generalizing vs with
  | nil => cases vs <;> rfl
  | cons x xs ih =>
    cases vs with
    | nil => rfl
    | cons v vs => simp [overwriteFrom, ih]

/-- Length is preserved by `writeRange`. -/
theorem writeRange_length (l : List Nat) (start : Nat) (vs : List Nat) :
    (writeRange l start vs).length = l.length := by
  induction l generalizing start with
  | nil => cases start <;> simp [writeRange, overwriteFrom_length]
  | cons x xs ih =>
    cases start with
    | zero => simp [writeRange, overwriteFrom_length]
    | succ start => simp [writeRange, ih]

/-- Length is preserved by the directory block-reload loop. -/
theorem reloadDirAux_length (p : Params) (disk : Disk) (bl : List Nat) (bc : Nat)
    (db : List Nat) : (reloadDirAux p disk bl bc db).length = db.length := by
  induction bl generalizing bc db with
  | nil => rfl
  | cons b rest ih =>
    by_cases hb : b = 0
    · simp [reloadDirAux, hb]
    · simp [reloadDirAux, hb, ih, writeRange_length]

/-- The NUL-padded name buffer has length `MAX_FILENAME_BYTES`. -/
theorem padName_length (p : Params) (name : List Nat)
    (h : name.length ≤ p.MAX_FILENAME_BYTES) :
    (padName p name).length = p.MAX_FILENAME_BYTES := by
  simp [padName]
  omega

/-- Reading inside the overwritten front. -/
theorem byteGet_overwriteFrom (l vs : List Nat) (j : Nat)
    (hj : j < vs.length) (hlen : vs.length ≤ l.length) :
    byteGet (overwriteFrom l vs) j = byteGet vs j := by
  induction vs generalizing l j with
  | nil => simp at hj
  | cons v vs ih =>
    cases l with
    | nil => simp at hlen
    | cons x xs =>
      cases j with
      | zero => rfl
      | succ j =>
        simp only [overwriteFrom, byteGet, List.getD_cons_succ]
        exact ih xs j (by simpa using hj) (by simpa using hlen)

/-- Reading inside a freshly written range. -/
theorem byteGet_writeRange (l : List Nat) (start : Nat) (vs : List Nat) (j : Nat)
    (hj : j < vs.length) (hfit : start + vs.length ≤ l.length) :
    byteGet (writeRange l start vs) (start + j) = byteGet vs j := by
  induction l generalizing start with
  | nil =>
    simp only [List.length_nil, Nat.le_zero, Nat.add_eq_zero] at hfit
    omega
  | cons x xs ih =>
    cases start with
    | zero => simpa [writeRange] using byteGet_overwriteFrom (x :: xs) vs j hj (by simpa using hfit)
    | succ start =>
      simp only [writeRange, Nat.succ_add, byteGet, List.getD_cons_succ]
      exact ih start (by simpa [Nat.succ_add] using hfit)

/-- Projection fact: `write_to_inode_table` only writes the disk. -/
theorem write_to_inode_table_directory (p : Params) (s : FS) (b : Nat) :
    (write_to_inode_table p s b).directory_buffer = s.directory_buffer := rfl

/-! The claim theorems. -/

/-- Claim C1 (code_bug evidence): the round-trip fails for a 448-byte
zero-free sequence, which fits the `max_file_size() = 512` limit.
`open_create`, `write`, `close` and `open_read` all succeed, but the file
then occupies `MAX_FILE_BLOCKS = 8` distinct blocks (the write path
allocates a block eagerly whenever `offset` reaches `BLOCK_SIZE`), and the
very first `read` call panics: its unique-block scan starts inserting at
array position 1, so the eighth distinct block is stored at
`unique_blocks[8]`, out of bounds for the 8-element array.  No byte
sequence is ever returned, so the concatenated output cannot equal the
written bytes. -/
theorem C1_roundtrip_read_panics :
    (open_create stdP freshFS nameOne).map Prod.fst = some (FileSystemResult.Ok 0) ∧
    (c1s1.bind fun s => (write stdP s 0 c1Bytes).map Prod.fst) =
      some (FileSystemResult.Ok ()) ∧
    (c1s2.bind fun s => (close stdP s 0).map Prod.fst) = some (FileSystemResult.Ok ()) ∧
    (c1s3.bind fun s => (open_read stdP s nameOne).map Prod.fst) =
      some (FileSystemResult.Ok 0) ∧
    (c1s4.bind fun s => read stdP s 0 600) = none := by
  decide

/-- Claim C2 (code_bug evidence): re-creating an existing closed file does
not free its data blocks.  Before the re-create the data bitmap (block 1)
has 11 set bits (reserved region 0..7 plus file blocks 8, 9, 10); the
claim requires the re-create to clear the bits of blocks 9 and 10, but the
bitmap is completely unchanged — the bit-clearing loop works on a local
zeroed buffer that is immediately overwritten by re-reading block 1 and
writing it back.  Moreover the surviving first block is not zeroed: after
writing `BBBBB` and closing, reading the file returns 64 bytes — the five
new bytes followed by 59 stale bytes of the old contents — not the newly
written contents only. -/
theorem C2_recreate_leaks_blocks_and_stale_bytes :
    (c2sClosed.map fun s => popcountBytes (diskRead s.disk 1)) = some 11 ∧
    (c2sRecreated.bind fun s => c2sClosed.map fun s0 =>
      decide (diskRead s.disk 1 = diskRead s0.disk 1)) = some true ∧
    (c2sRecreated.bind fun s => (s.open_files.getD 0 none).map (·.inode_num)) = some 1 ∧
    (c2sRewritten.bind fun s =>
      ((open_read stdP s nameOne).map Prod.snd).bind fun s2 =>
        (read stdP s2 0 200).map fun r => r.2.1) =
      some ([66, 66, 66, 66, 66] ++ List.replicate 59 65) := by
  decide

/-- Claim C3 counterexample: the claim promises success up to exactly
`max_file_size() = 512` bytes in total, and byte number 512 does not
require a new block (the last block still has a free slot at offset
`BLOCK_SIZE - 1`); yet after 511 accepted bytes the write of byte number
512 returns `FileTooBig`. -/
theorem C3_byte512_rejected :
    ((open_create stdP freshFS nameOne).map Prod.fst) = some (FileSystemResult.Ok 0) ∧
    (((open_create stdP freshFS nameOne).map Prod.snd).bind fun s =>
      (write stdP s 0 c3Bytes).map Prod.fst) = some (FileSystemResult.Ok ()) ∧
    (c3s511.bind fun s => (s.open_files.getD 0 none).map (·.offset)) = some 63 ∧
    (c3s511.bind fun s => (write stdP s 0 [66]).map Prod.fst) =
      some (FileSystemResult.Err FileSystemError.FileTooBig) := by
  decide

/-- Claim C3 (amended): once a file open for writing holds
`MAX_FILE_BLOCKS` distinct blocks and byte `BLOCK_SIZE - 2` of its last
block is nonzero on disk — the state reached after `max_file_size() - 1 =
511` accepted bytes — any further write returns `FileTooBig` and leaves
the state completely unchanged, so the check happens before the
overflowing byte is committed; the writable capacity of a file is
therefore `max_file_size() - 1`, not `max_file_size()`.  (A single write
call larger than the remaining capacity is not rejected but corrupts the
file, see C1.) -/
theorem C3_tooBig_guard (s : FS) (fd b : Nat) (input : List Nat)
    (e : FileInfo) (blocks : List Nat) (count : Nat)
    (hfd : fd < 16)
    (he : s.open_files.getD fd none = some e)
    (hr : e.reading = false)
    (hscan : scanDataFullAux 31 (diskRead s.disk 1) 0 = false)
    (hcol : writeCollectAux 8 s.file_content_buffer (e.inode_num * 10 + 2) 8
      (List.replicate 8 0) 0 = some (blocks, count))
    (hfull : blocks.contains 0 = false)
    (hlast : byteGet (diskRead s.disk (byteGet blocks 7)) 62 ≠ 0) :
    write stdP s fd (b :: input) =
      some (FileSystemResult.Err FileSystemError.FileTooBig, s) := by
  have h1 : ¬ (stdP.MAX_OPEN ≤ fd) := by
    simp only [stdP]
    omega
  have h2 : stdP.NUM_BLOCKS / stdP.MAX_FILE_BLOCKS = 31 := by norm_num [stdP]
  have h3 : stdP.num_inode_bytes = 10 := rfl
  have h4 : stdP.MAX_FILE_BLOCKS = 8 := rfl
  have h5 : stdP.BLOCK_SIZE = 64 := rfl
  rw [write, if_neg h1, he]
  simp only [hr, Bool.false_eq_true, if_false]
  rw [h2, hscan]
  simp only [Bool.false_eq_true, if_false]
  rw [h3, h4]
  simp only [show (10 : Nat) - 2 = 8 from rfl]
  rw [hcol]
  simp only [writeByteLoopAux, h4, h5, show (8 : Nat) - 1 = 7 from rfl,
    show (64 : Nat) - 2 = 62 from rfl]
  rw [if_pos ⟨by simpa using hfull, hlast⟩]

/-- Witness for `C3_tooBig_guard` at the state holding 511 bytes. -/
theorem C3_tooBig_guard_witness :
    c3w.open_files.getD 0 none = some c3wEntry ∧
    scanDataFullAux 31 (diskRead c3w.disk 1) 0 = false ∧
    c3wCol.1.contains 0 = false ∧
    byteGet (diskRead c3w.disk (byteGet c3wCol.1 7)) 62 ≠ 0 ∧
    write stdP c3w 0 [66] = some (FileSystemResult.Err FileSystemError.FileTooBig, c3w) :=
  ⟨by decide, by decide, by decide, by decide,
    C3_tooBig_guard c3w 0 66 [] c3wEntry c3wCol.1 c3wCol.2 (by decide) (by decide)
      (by decide) (by decide) (by decide) (by decide) (by decide)⟩

/-- Claim C4 (code_bug evidence): with every open-table slot occupied, a
further `open_create` does not return `TooManyOpen` (that error is never
constructed anywhere in the source): the slot-search loop runs off the end
leaving `fd = MAX_OPEN = 16`, the entry is dropped, and the operation
returns `Ok 16` — an out-of-range file descriptor. -/
theorem C4_full_table_returns_invalid_fd :
    c4sFull.isSome = true ∧
    (c4sFull.map fun s => s.open_files.all (·.isSome)) = some true ∧
    (c4sFull.bind fun s => (open_create stdP s [113, 113]).map Prod.fst) =
      some (FileSystemResult.Ok 16) := by
  decide

/-- Claim C5 (code_bug evidence): `open_read` and `open_append` applied to a
filename longer than `MAX_FILENAME_BYTES` do not return a
`FileSystemResult`: the unchecked copy `namebuffer[i] = c` indexes out of
bounds and panics (modelled by `none`); likewise `read` applied to the
out-of-range descriptor `MAX_OPEN` panics at `self.open[fd]`.  Only
`open_create` performs the length check and returns `FilenameTooLong`. -/
theorem C5_panic_on_long_name_and_bad_fd :
    open_read stdP freshFS nameNine = none ∧
    open_append stdP freshFS nameNine = none ∧
    read stdP freshFS 16 5 = none ∧
    (open_create stdP freshFS nameNine).map Prod.fst =
      some (FileSystemResult.Err FileSystemError.FilenameTooLong) := by
  decide

/-- Claim C6 (code_bug evidence): `close` does not write the inode table
back to disk faithfully.  After the close of `f06` the in-memory
inode-table image holds the (nonzero) data-block index of inode 6 at image
offset 65, but the on-disk table stores 0 there: the streaming writer
flushes each block when its byte counter reaches `BLOCK_SIZE - 1`, dropping
one image byte per block (the block last byte stays 0) and shifting every
later block by one.  Image offset 65 lives in the second table block
(block 3) at position 1, which the write-back zeroes.  The close itself
returns `Ok`. -/
theorem C6_close_table_writeback_lossy :
    (c6sOpen.bind fun s => (close stdP s 0).map Prod.fst) =
      some (FileSystemResult.Ok ()) ∧
    (c6sClosed.map fun s => byteGet s.file_content_buffer 65) = some 13 ∧
    (c6sClosed.map fun s => byteGet (diskRead s.disk 3) 1) = some 0 := by
  decide

/-- Claim C7 counterexample: for the newly allocated inode index 1 the
claim places the NUL-padded name at directory offset `1 *
MAX_FILENAME_BYTES = 8`, but the insertion uses offset `(MAX_FILENAME_BYTES
* (inode_num - 1)) % BLOCK_SIZE = 0`: bytes 8..15 of the directory image
stay zero while bytes 0..7 hold the padded name. -/
theorem C7_insertion_offset_shifted :
    (c7s.bind fun s => (s.open_files.getD 0 none).map (·.inode_num)) = some 1 ∧
    (c7s.map fun s => (s.directory_buffer.drop 8).take 8) =
      some [0, 0, 0, 0, 0, 0, 0, 0] ∧
    (c7s.map fun s => s.directory_buffer.take 8) =
      some [97, 0, 0, 0, 0, 0, 0, 0] := by
  decide

/-- Claim C7 (amended): when `open_create` allocates a fresh inode index
`n ≥ 1`, it writes the NUL-padded filename into the directory image at
byte offset `(MAX_FILENAME_BYTES * (n - 1)) % BLOCK_SIZE` — one slot lower
than the claim states, and wrapped to the first directory block — so slot
`i` of the directory holds the filename of inode `i + 1`, and names of
inodes past `BLOCK_SIZE / MAX_FILENAME_BYTES` overwrite earlier slots. -/
theorem C7_insert_offset (s0 : FS) (name : List Nat) (n : Nat)
    (hlen : name.length ≤ 8)
    (hdb : (createPrelude stdP s0).1.directory_buffer.length = 512)
    (hnf : dirLookup stdP (padName stdP name) (createPrelude stdP s0).1.directory_buffer = none)
    (hb2 : ¬ byteGet (createPrelude stdP s0).2.2 63 = 255)
    (hscan : (return_open_inode stdP (createPrelude stdP s0).1).2.2 = n)
    (h1 : 1 ≤ n) (h32 : n ≠ 32) :
    ∃ fd s2, open_create stdP s0 name = some (FileSystemResult.Ok fd, s2) ∧
      ∀ j, j < 8 →
        byteGet s2.directory_buffer ((8 * (n - 1)) % 64 + j) = byteGet (padName stdP name) j := by
  rcases hP : createPrelude stdP s0 with ⟨s1, b1, b2⟩
  rw [hP] at hdb hnf hb2 hscan
  dsimp only at hdb hnf hb2 hscan
  have hmod56 : 8 * (n - 1) % 64 ≤ 56 := by
    have h8 := Nat.mul_mod_mul_left 8 (n - 1) 8
    have h7 : (n - 1) % 8 ≤ 7 := Nat.le_of_lt_succ (Nat.mod_lt _ (by omega))
    omega
  rw [open_create]
  rw [if_neg (by simp [stdP]; omega)]
  rw [hP]
  try dsimp only
  rw [hnf]
  dsimp only [stdP] at hscan ⊢
  have e63 : (64 : Nat) - 1 = 63 := rfl
  rw [e63, if_neg hb2]
  rw [hscan]
  rw [if_neg h32]
  rw [if_neg (by omega : ¬ n = 0)]
  try dsimp only
  rw [if_neg (by omega : ¬ (64 - 8 * (n - 1) % 64 < 8))]
  try dsimp only
  refine ⟨_, _, rfl, fun j hj => ?_⟩
  have hnb : (padName stdP name).length = 8 := padName_length stdP name hlen
  dsimp only [stdP] at hnb
  apply byteGet_writeRange
  · omega
  · rw [reloadDirAux_length, write_to_inode_table_directory]
    try dsimp only
    omega

/-- Witness for `C7_insert_offset`: creating `a` on the fresh file system
allocates inode 1 and the name lands at offset `(8 * 0) % 64 = 0`. -/
theorem C7_insert_offset_witness :
    (createPrelude stdP freshFS).1.directory_buffer.length = 512 ∧
    dirLookup stdP (padName stdP [97]) (createPrelude stdP freshFS).1.directory_buffer = none ∧
    (return_open_inode stdP (createPrelude stdP freshFS).1).2.2 = 1 ∧
    (∃ fd s2, open_create stdP freshFS [97] = some (FileSystemResult.Ok fd, s2) ∧
      ∀ j, j < 8 →
        byteGet s2.directory_buffer ((8 * (1 - 1)) % 64 + j) = byteGet (padName stdP [97]) j) :=
  ⟨by decide, by decide, by decide,
    C7_insert_offset freshFS [97] 1 (by decide) (by decide) (by decide) (by decide)
      (by decide) (by decide) (by decide)⟩

/-- Claim C8 counterexample: in `c8FS` the data bitmap has no zero bit and
the open file block list holds the maximum number (8) of distinct
blocks, yet `write` of one byte returns `Ok`, not `DiskFull`: the
disk-full scan stops at the first bitmap byte below 255, and byte 31 is
127 because bit 255 corresponds to no block, so a fully-used bitmap is
never detected. -/
theorem C8_full_bitmap_not_detected :
    dataBitmapFull stdP (diskRead c8FS.disk 1) ∧
    (firstOccurrences ((c8FS.file_content_buffer.drop 12).take 8)).length = 8 ∧
    (write stdP c8FS 0 [65]).map Prod.fst = some (FileSystemResult.Ok ()) := by
  decide

/-- Claim C8 (amended): `write` reports `DiskFull` exactly when its
byte-scan of the data bitmap sees only 255-bytes up to the cutoff counter
`NUM_BLOCKS / MAX_FILE_BLOCKS = 31`; the failing call returns with the
state unchanged.  (A bitmap whose 255 in-range bits are all set does not
satisfy the scan, since byte 31 is then 127 — see the counterexample — so
real exhaustion goes undetected.) -/
theorem C8_scan_full_gives_DiskFull (s : FS) (fd : Nat) (input : List Nat)
    (e : FileInfo)
    (hfd : fd < 16)
    (he : s.open_files.getD fd none = some e)
    (hr : e.reading = false)
    (hscan : scanDataFullAux 31 (diskRead s.disk 1) 0 = true) :
    write stdP s fd input = some (FileSystemResult.Err FileSystemError.DiskFull, s) := by
  have h1 : ¬ (stdP.MAX_OPEN ≤ fd) := by
    simp only [stdP]
    omega
  have h2 : stdP.NUM_BLOCKS / stdP.MAX_FILE_BLOCKS = 31 := by norm_num [stdP]
  rw [write, if_neg h1, he]
  simp only [hr, h2, hscan, if_true, Bool.false_eq_true, if_false]

/-- Witness for `C8_scan_full_gives_DiskFull` at a concrete state. -/
theorem C8_scan_full_witness :
    c8wFS.open_files.getD 0 none = some c8Entry ∧
    scanDataFullAux 31 (diskRead c8wFS.disk 1) 0 = true ∧
    write stdP c8wFS 0 [65] = some (FileSystemResult.Err FileSystemError.DiskFull, c8wFS) :=
  ⟨by decide, by decide,
    C8_scan_full_gives_DiskFull c8wFS 0 [65] c8Entry (by decide) (by decide)
      (by decide) (by decide)⟩

/-- Claim C9 (code_bug evidence): after nine successful `open_create`
operations the inode bitmap holds 10 set bits (inode 0 plus inodes 1..9),
but `list_directory` reports only 8 names: the ninth filename was written
at directory offset `(8 * 8) % 64 = 0`, overwriting the first file slot,
because the insertion offset is reduced modulo `BLOCK_SIZE` and the
directory never grows.  10 is not 8 + 1, refuting the invariant. -/
theorem C9_bitmap_vs_directory_mismatch :
    (c9s.map fun s => popcountBytes (diskRead s.disk 0)) = some 10 ∧
    (c9s.bind fun s => (list_directory stdP s).map fun r =>
      match r.1 with
      | FileSystemResult.Ok (c, _) => c
      | FileSystemResult.Err _ => 1000) = some 8 := by
  decide

/-- Claim C10: frame property of `read`.  Whenever `read` returns (rather
than panicking), the resulting state has the same disk (hence the same
bitmaps and on-disk structures), the same inode-table image, the same
directory image, the same per-inode open flags and scratch buffer, and
every open-table slot other than `fd` unchanged; the entry at `fd` itself
changes at most in `current_block` and `offset`. -/
theorem C10_read_frame (s : FS) (fd buf_len : Nat) (r : FileSystemResult Nat)
    (bytes : List Nat) (s2 : FS)
    (h : read stdP s fd buf_len = some (r, bytes, s2)) :
    s2.disk = s.disk ∧
    s2.file_content_buffer = s.file_content_buffer ∧
    s2.directory_buffer = s.directory_buffer ∧
    s2.open_inodes = s.open_inodes ∧
    s2.block_buffer = s.block_buffer ∧
    (∀ j, j ≠ fd → s2.open_files.getD j none = s.open_files.getD j none) ∧
    (∀ e e2, s.open_files.getD fd none = some e →
      s2.open_files.getD fd none = some e2 →
      e2.inode = e.inode ∧ e2.inode_num = e.inode_num ∧ e2.writing = e.writing ∧
      e2.reading = e.reading ∧ e2.block_buffer = e.block_buffer) := by
  rw [read] at h
  split at h
  · exact absurd h (by simp)
  · split at h
    next hM =>
      simp only [Option.some.injEq, Prod.mk.injEq] at h
      obtain ⟨-, -, rfl⟩ := h
      refine ⟨rfl, rfl, rfl, rfl, rfl, fun j _ => rfl, fun e e2 he0 he2 => ?_⟩
      rw [hM] at he0
      exact Option.noConfusion he0
    next e hM =>
      split at h
      · simp only [Option.some.injEq, Prod.mk.injEq] at h
        obtain ⟨-, -, rfl⟩ := h
        refine ⟨rfl, rfl, rfl, rfl, rfl, fun j _ => rfl, fun e0 e2 he0 he2 => ?_⟩
        rw [hM] at he0 he2
        cases he0
        cases he2
        exact ⟨rfl, rfl, rfl, rfl, rfl⟩
      · dsimp only at h
        split at h
        · exact absurd h (by simp)
        next col hC =>
          simp only [Option.some.injEq, Prod.mk.injEq] at h
          obtain ⟨-, -, rfl⟩ := h
          refine ⟨rfl, rfl, rfl, rfl, rfl, fun j hj => getD_set_ne _ _ _ _ _ ?_,
            fun e0 e2 he0 he2 => ?_⟩
          · exact fun hfj => hj hfj.symm
          · rw [hM] at he0
            cases he0
            rcases Nat.lt_or_ge fd s.open_files.length with hlt | hge
            · rw [List.getD_eq_getElem?_getD, List.getElem?_set_self hlt] at he2
              simp only [Option.getD_some, Option.some.injEq] at he2
              subst he2
              exact ⟨rfl, rfl, rfl, rfl, rfl⟩
            · rw [List.set_eq_of_length_le hge, hM] at he2
              cases he2
              exact ⟨rfl, rfl, rfl, rfl, rfl⟩

/-- Witness for `C10_read_frame` at a concrete state. -/
theorem C10_read_frame_witness :
    read stdP c10s 0 50 = some (c10r, c10bytes, c10s2) ∧
    c10s2.disk = c10s.disk ∧ c10s2.directory_buffer = c10s.directory_buffer :=
  ⟨by decide, (C10_read_frame c10s 0 50 c10r c10bytes c10s2 (by decide)).1,
    (C10_read_frame c10s 0 50 c10r c10bytes c10s2 (by decide)).2.2.1⟩

end FsSpec
